import Mathlib

/-
Verification of the spatial-visualization-app repository.
The two Python source files (visualization_app.py and visualization_tool.py)
are shallowly embedded below: Python strings become lists of characters,
the Streamlit session dictionaries become association lists, and calls into
external libraries (geopandas, folium, pyproj, matplotlib) are abstracted as
oracle parameters recording what the library call added to the folium map
and whether it raised an exception.
-/

namespace Viz

/-- Python strings are modelled as lists of characters. -/
abbrev Str := List Char

/-! ## Decimal rendering of natural numbers (models CPython str(int)) -/

/-- Decimal digit characters with explicit fuel; structural recursion so the
kernel can evaluate it.  Any fuel above the number itself is enough, because
division by ten strictly decreases a positive number. -/
def natDigitsAux : Nat → Nat → List Char
  | 0, _ => []
  | fuel + 1, n =>
    if n < 10 then [Nat.digitChar n]
    else natDigitsAux fuel (n / 10) ++ [Nat.digitChar (n % 10)]

/-- Decimal digit characters of a natural number, most significant first.
Models the text produced by Python str() on a non-negative int, as used by
the f-string in load_data. -/
def natDigits (n : Nat) : List Char := natDigitsAux (n + 1) n

/-- Numeric value of a digit character. -/
def digitVal (c : Char) : Nat := c.toNat - 48

/-- Decimal value of a digit string. -/
def digitsVal (l : List Char) : Nat := l.foldl (fun a c => 10 * a + digitVal c) 0

/-! ## clear_map_html (visualization_tool.py, lines 31-45)

The two regular expressions in the source,
  var layer_control_[a-f0-9]+_layers = \x7b[^\x7d]+\x7d;
  let layer_control_[a-f0-9]+ = L\.control\.layers\([^)]+\)\.addTo\(map_[a-f0-9]+\);
are deterministic: every character class in them is followed by a literal
character that the class excludes, so at a given start position at most one
match is possible and no backtracking can occur.  The matchers below return
the matched text together with the remaining suffix. -/

/-- Characters of the regex class [a-f0-9]. -/
def isHexLower (c : Char) : Bool := ( 'a' ≤ c && c ≤ 'f' ) || ( '0' ≤ c && c ≤ '9' )

/-- Consume an exact literal from the front of a string. -/
def dropLit : Str → Str → Option Str
  | [], s => some s
  | _ :: _, [] => none
  | l :: ls, c :: cs => if c = l then dropLit ls cs else none

/-- Consume a non-empty maximal run of characters satisfying p. -/
def takeRun1 (p : Char → Bool) (s : Str) : Option (Str × Str) :=
  let t := s.takeWhile p
  if t.isEmpty then none else some (t, s.drop t.length)

/-- Match the layer_control_var_pattern regex at the start of s. -/
def matchVar (s : Str) : Option (Str × Str) :=
  match dropLit ("var layer_control_".toList) s with
  | none => none
  | some r1 =>
    match takeRun1 isHexLower r1 with
    | none => none
    | some (h, r2) =>
      match dropLit ("_layers = \x7b".toList) r2 with
      | none => none
      | some r3 =>
        match takeRun1 (fun c => c != '\x7d' ) r3 with
        | none => none
        | some (b, r4) =>
          match dropLit ("\x7d;".toList) r4 with
          | none => none
          | some r5 =>
            some ("var layer_control_".toList ++ h ++ "_layers = \x7b".toList
              ++ b ++ "\x7d;".toList, r5)

/-- Match the layer_control_creation_pattern regex at the start of s. -/
def matchCre (s : Str) : Option (Str × Str) :=
  match dropLit ("let layer_control_".toList) s with
  | none => none
  | some r1 =>
    match takeRun1 isHexLower r1 with
    | none => none
    | some (h, r2) =>
      match dropLit (" = L.control.layers(".toList) r2 with
      | none => none
      | some r3 =>
        match takeRun1 (fun c => c != ')' ) r3 with
        | none => none
        | some (b, r4) =>
          match dropLit (").addTo(map_".toList) r4 with
          | none => none
          | some r5 =>
            match takeRun1 isHexLower r5 with
            | none => none
            | some (h2, r6) =>
              match dropLit (");".toList) r6 with
              | none => none
              | some r7 =>
                some ("let layer_control_".toList ++ h ++ " = L.control.layers(".toList
                  ++ b ++ ").addTo(map_".toList ++ h2 ++ ");".toList, r7)

/-- Scan of re.finditer: try a match at every position from left to right,
resuming after the end of each match (matches are non-overlapping).  The fuel
argument equals the length of the scanned string; each step either consumes
the matched text (our matchers only succeed consuming at least one character)
or advances one position, so the fuel never runs out early. -/
def finditerAux (matcher : Str → Option (Str × Str)) : Nat → Str → List Str
  | 0, _ => []
  | _ + 1, [] => []
  | fuel + 1, c :: rest =>
    match matcher (c :: rest) with
    | some (m, r) => m :: finditerAux matcher fuel r
    | none => finditerAux matcher fuel rest

/-- List of matched texts of re.finditer over the whole string. -/
def finditer (matcher : Str → Option (Str × Str)) (s : Str) : List Str :=
  finditerAux matcher s.length s

/-- Python str.replace(old, "") for a non-empty old: delete every
left-to-right non-overlapping occurrence of target. -/
def pyReplaceAux (target : Str) : Nat → Str → Str
  | 0, s => s
  | _ + 1, [] => []
  | fuel + 1, c :: rest =>
    if target ≠ [] ∧ List.isPrefixOf target (c :: rest)
    then pyReplaceAux target fuel (List.drop target.length (c :: rest))
    else c :: pyReplaceAux target fuel rest

/-- html_content.replace(target, "") as used in clear_map_html. -/
def pyReplaceDel (s target : Str) : Str := pyReplaceAux target s.length s

/-- visualization_tool.py lines 31-45: both finditer scans run on the original
input, then every match but the last of each pattern is fed to str.replace
with an empty replacement. -/
def clear_map_html (html_content : Str) : Str :=
  let var_matches := finditer matchVar html_content
  let creation_matches := finditer matchCre html_content
  let h1 := if var_matches.length > 1
    then var_matches.dropLast.foldl pyReplaceDel html_content
    else html_content
  let h2 := if creation_matches.length > 1
    then creation_matches.dropLast.foldl pyReplaceDel h1
    else h1
  h2

/-- A single layer-control variable declaration as folium renders it. -/
def lcStmtA : Str := ("var layer_control_a_layers = \x7bx\x7d;").toList

/-- Two textually identical copies of the same declaration, the shape produced
by rendering the same layer-control widget twice. -/
def dupHtml : Str := lcStmtA ++ lcStmtA

/-! ## Data model shared by both source files

GeoDataFrames are modelled by their coordinate reference system, their
attribute columns with pandas dtypes, and their rows; a row carries the
geometry type string exposed by gdf.geometry.type, a representative
coordinate pair, and the attribute values used by categorical filtering.
Coordinate transformations performed by geopandas/pyproj are abstracted as a
function parameter on coordinate pairs. -/

/-- Pandas dtype of a column, as distinguished by the source code. -/
inductive Dtype
  | numericD
  | objectD
  | geometryD
deriving DecidableEq

/-- pandas.api.types.is_numeric_dtype. -/
def is_numeric_dtype : Dtype → Bool
  | .numericD => true
  | _ => false

/-- Text pandas prints for a dtype (only appears inside error messages). -/
def dtypeName : Dtype → Str
  | .numericD => ("float64").toList
  | .objectD => ("object").toList
  | .geometryD => ("geometry").toList

/-- One row of a GeoDataFrame. -/
structure GeoRow where
  gtype : Str
  coord : Int × Int
  vals : List (Str × Str)
deriving DecidableEq

/-- A GeoDataFrame. -/
structure GeoDataFrame where
  crs : Option Nat
  cols : List (Str × Dtype)
  rows : List GeoRow
deriving DecidableEq

/-- Messages surfaced in the Streamlit UI (st.error / st.warning / st.success). -/
inductive UiMsg
  | uiError (s : Str)
  | uiWarning (s : Str)
  | uiSuccess (s : Str)
deriving DecidableEq

/-- The st.session_state["geodataframes"] dictionary, in insertion order. -/
abbrev Env := List (Str × GeoDataFrame)

/-- Keys of the environment dictionary. -/
def envKeys (env : Env) : List Str := env.map Prod.fst

/-- Python dict lookup on the environment. -/
def envFind (env : Env) (k : Str) : Option GeoDataFrame :=
  match env with
  | [] => none
  | p :: t => if k = p.1 then some p.2 else envFind t k

/-- Python dict assignment env[k] = v: overwrite in place when the key
exists, append otherwise (dicts preserve insertion order). -/
def dictInsert (env : Env) (k : Str) (v : GeoDataFrame) : Env :=
  if (envFind env k).isSome
  then env.map (fun p => if p.1 = k then (k, v) else p)
  else env ++ [(k, v)]

/-! ## load_data (visualization_app.py, lines 23-72) -/

/-- Index of the last occurrence of a character, os.path rfind style. -/
def rfindIdx (c : Char) (s : Str) : Option Nat :=
  ((List.range s.length).filter (fun i => s[i]? = some c)).getLast?

/-- Extension part of posixpath.splitext: the suffix from the last dot,
provided that dot lies after the last path separator and that some non-dot
character precedes it within the base name (so dotfiles have no extension). -/
def splitextExt (p : Str) : Str :=
  match rfindIdx '.' p with
  | none => []
  | some di =>
    let si : Int := match rfindIdx '/' p with
      | none => -1
      | some j => (j : Int)
    if (di : Int) > si then
      if (List.range di).any (fun j => decide (si < (j : Int)) && (p[j]? != some '.' ))
      then p.drop di
      else []
    else []

/-- os.path.splitext(uploaded_file.name)[1][1:].lower() from line 26. -/
def extLower (name : Str) : Str := ((splitextExt name).drop 1).map Char.toLower

/-- The geopandas error text raised by to_crs on a GeoDataFrame without CRS. -/
def naiveCrsError : Str :=
  ("Cannot transform naive geometries.  Please set a crs on the object first.").toList

/-- GeoDataFrame.to_crs(epsg=25832): raises (modelled as none) when the
source CRS is unset, otherwise sets the CRS to EPSG:25832 and maps the
abstract coordinate transformation over the rows. -/
def to_crs25832 (tr : Int × Int → Int × Int) (g : GeoDataFrame) : Option GeoDataFrame :=
  match g.crs with
  | none => none
  | some _ =>
    some { g with crs := some 25832, rows := g.rows.map (fun r => { r with coord := tr r.coord }) }

/-- The name generated for a stored GeoDataFrame: f-string "gdf_" plus the
decimal size of the dictionary (lines 40 and 62). -/
def gdfName (n : Nat) : Str := ("gdf_").toList ++ natDigits n

/-- load_data (lines 23-72).  The geojson and zip branches of the source are
textually identical after reading (to_crs, spatial index, store); reading a
GeoJSON upload and reading an unzipped Shapefile directory are both external
geopandas calls, abstracted as the read argument (ok or raised message).
The inner spatial-index try/except only emits a warning and never affects the
result, so its messages are not tracked.  Returns the value returned by the
Python function, the updated dictionary, and the UI messages emitted. -/
def load_data (name : Str) (read : Except Str GeoDataFrame)
    (tr : Int × Int → Int × Int) (env : Env) : Option Str × Env × List UiMsg :=
  let ext := extLower name
  if ext = ("geojson").toList ∨ ext = ("zip").toList then
    match read with
    | .error e => (none, env, [UiMsg.uiError (("Error loading file: ").toList ++ e)])
    | .ok g =>
      match to_crs25832 tr g with
      | none =>
        (none, env, [UiMsg.uiError (("Error loading file: ").toList ++ naiveCrsError)])
      | some g2 =>
        let gdf_name := gdfName env.length
        (some gdf_name, dictInsert env gdf_name g2, [])
  else
    (none, env, [UiMsg.uiError (("Unsupported file format: ").toList ++ ext)])

/-! ## Session lifecycle (visualization_app.py, main)

The operations that can touch the geodataframes dictionary during a session:
a call to load_data for an uploaded file (lines 206-213) and the Clear button
(lines 306-311), which resets the dictionary to empty. -/

/-- One session operation on the geodataframes dictionary. -/
inductive AppOp
  | load (name : Str) (read : Except Str GeoDataFrame)
  | clearSession

/-- Effect of one operation on the dictionary. -/
def appStep (tr : Int × Int → Int × Int) (env : Env) : AppOp → Env
  | .load name read => (load_data name read tr env).2.1
  | .clearSession => []

/-- The dictionary after a sequence of session operations, starting from the
empty dictionary installed by session initialisation (line 102). -/
def runOps (tr : Int × Int → Int × Int) (ops : List AppOp) : Env :=
  ops.foldl (appStep tr) []

/-- Invariant: the keys are exactly gdf_0 .. gdf_(n-1) in order. -/
def envWf (env : Env) : Prop :=
  envKeys env = (List.range env.length).map gdfName

/-- A GeoDataFrame with a declared CRS, used to instantiate theorems. -/
def gdfW : GeoDataFrame := { crs := some 4326, cols := [], rows := [] }

/-- Identity coordinate transformation, used to instantiate theorems. -/
def trId : Int × Int → Int × Int := fun p => p

/-- Two successful uploads, used to instantiate the session theorems. -/
def opsW : List AppOp :=
  [AppOp.load (("a.geojson").toList) (.ok gdfW), AppOp.load (("b.zip").toList) (.ok gdfW)]

/-! ## Folium map model (visualization_tool.py)

A folium map is modelled by the keys of its _children dictionary in
insertion order, plus the counter supplying the unique object ids folium
embeds into child keys.  The external rendering calls (gdf.explore,
gdf.plot, the HeatMap plugin, the pyproj Transformer and fit_bounds inside
fit_map, folium's _to_png) are abstracted as oracle outcomes: the child keys
the call appended to the map before returning or raising, and the exception
message when it raised.  Folium derives a child key from the class name of
the added object, so only f.LayerControl() produces keys starting with
layer_control; theorems about layer-control counting carry that fact as a
hypothesis on the oracle keys. -/

/-- A folium map. -/
structure FMap where
  children : List Str
  nextId : Nat
deriving DecidableEq

/-- The key prefix folium gives LayerControl children. -/
def lcMark : Str := ("layer_control").toList

/-- Python str.startswith, applied to child keys. -/
def startsWith (p s : Str) : Bool := List.isPrefixOf p s

/-- Add one child with a fresh folium object id to a map. -/
def addChild (m : FMap) (base : Str) : FMap :=
  { children := m.children ++ [base ++ '_' :: natDigits m.nextId], nextId := m.nextId + 1 }

/-- add_layer_control (lines 15-17): f.LayerControl().add_to(map). -/
def add_layer_control (m : FMap) : FMap := addChild m lcMark

/-- Number of children whose key starts with layer_control. -/
def lcCount (m : FMap) : Nat := (m.children.filter (fun k => startsWith lcMark k)).length

/-- The delete loop of _visualize_explore (lines 225-227): remove every
child whose key starts with layer_control. -/
def deleteLayerControls (m : FMap) : FMap :=
  { m with children := m.children.filter (fun k => ! startsWith lcMark k) }

/-- Append the children an external call added to the map. -/
def applyAdded (m : FMap) (added : List Str) : FMap :=
  { m with children := m.children ++ added }

/-- The map produced by create_map (lines 47-112): geocoder, draw feature
group and draw control, mouse position, fullscreen, locate control, measure
control, two tile layers, the side-by-side control and one layer control;
the popup style element is attached to the document root, not to the map. -/
def create_map : FMap :=
  (([ "geocoder", "feature_group", "draw", "mouse_position", "fullscreen",
      "locate_control", "measure_control", "tile_layer", "tile_layer",
      "side_by_side_layers", "layer_control" ]).map (fun s => s.toList)).foldl
    addChild { children := [], nextId := 0 }

/-- Outcome of one external library call that may touch a map: the child
keys it appended before finishing, and the raised message when it raised. -/
structure RenderOutcome where
  added : List Str
  err : Option Str
deriving DecidableEq

/-- Oracles for the external calls a single visualize invocation can make:
the rendering call of the selected branch, the fit_map call, the folium
_to_png conversion of the heatmap plot branch, and the geopandas/pyproj
coordinate transformation to EPSG:4326. -/
structure Ext where
  render : RenderOutcome
  fit : RenderOutcome
  toPng : Option Str
  transform : Int × Int → Int × Int

/-! ## VisualizationTool data types (visualization_tool.py, lines 114-181) -/

/-- Classification schema enum (lines 115-130). -/
inductive Scheme
  | BoxPlot
  | EqualInterval
  | FisherJenks
  | FisherJenksSampled
  | HeadTailBreaks
  | JenksCaspall
  | JenksCaspallForced
  | JenksCaspallSampled
  | MaxP
  | MaximumBreaks
  | NaturalBreaks
  | Quantiles
  | Percentiles
  | StdMean
deriving DecidableEq

/-- Parameters for numeric visualizations (lines 132-140).  The float fields
vmin and vmax are only forwarded to the external renderer, never inspected,
and are modelled over the integers. -/
structure Numeric where
  gdf_column : Str
  k : Option Int
  scheme : Option Scheme
  cmap : Str
  vmin : Option Int
  vmax : Option Int
  legend_caption : Str
deriving DecidableEq

/-- Parameters for categorical visualizations (lines 142-148). -/
structure Categorical where
  gdf_column : Str
  cmap : Str
  legend_caption : Str
  categories : Option (List Str)
deriving DecidableEq

/-- The method literal of visualize. -/
inductive Method
  | explore
  | plot
deriving DecidableEq

/-- Return value of VisualizationTool.visualize: Python True, an
error-message string, or Python None (the implicit return of the dispatch
helpers when no option is set, unreachable behind argument validation). -/
inductive VisResult
  | ok
  | err (msg : Str)
  | pynone
deriving DecidableEq

/-- State of a VisualizationTool object: the folium map, the GeoDataFrame
environment, the current matplotlib figure and axes ids, and the supply of
fresh figure ids consumed by plt.subplots. -/
structure ToolState where
  map : FMap
  env : Env
  current_fig : Option Nat
  current_ax : Option Nat
  nextFig : Nat
deriving DecidableEq

/-- Column dtype lookup, gdf[column].dtype; none when the column is absent,
which is exactly the condition column not in gdf.columns of the source. -/
def colFind (cols : List (Str × Dtype)) (c : Str) : Option Dtype :=
  match cols with
  | [] => none
  | p :: t => if c = p.1 then some p.2 else colFind t c

/-- gdf.columns membership and dtype access, combined. -/
def dtypeOf (g : GeoDataFrame) (c : Str) : Option Dtype := colFind g.cols c

/-- Attribute value of a row in a given column. -/
def valFind (vals : List (Str × Str)) (c : Str) : Option Str :=
  match vals with
  | [] => none
  | p :: t => if c = p.1 then some p.2 else valFind t c

/-- gdf[column].isin(categories) for one row. -/
def catMem (r : GeoRow) (column : Str) (cats : List Str) : Bool :=
  match valFind r.vals column with
  | some v => v ∈ cats
  | none => false

/-- The geometry type string of points. -/
def pointT : Str := ("Point").toList

/-- gdf.geometry.type == 'Point' for one row: an exact string comparison, so
MultiPoint and every other type fail it. -/
def isPointRow (r : GeoRow) : Bool := r.gtype = pointT

/-- The heat_data list of lines 408-409 and 436-437: latitude-longitude
pairs of exactly the rows whose geometry type is Point, after coordinate
transformation to EPSG:4326. -/
def heatDataOf (g : GeoDataFrame) (tr : Int × Int → Int × Int) : List (Int × Int) :=
  (g.rows.filter isPointRow).map (fun r => ((tr r.coord).2, (tr r.coord).1))

/-- pandas Series.unique over the geometry type column: first-occurrence
order. -/
def uniqueGtypes (g : GeoDataFrame) : List Str :=
  (g.rows.map GeoRow.gtype).foldl (fun acc t => if t ∈ acc then acc else acc ++ [t]) []

/-! ## Error message texts -/

/-- Python str() of a list of strings, as interpolated into messages. -/
def pyStrList (xs : List Str) : Str :=
  '[' :: (List.intercalate ((", ").toList) (xs.map (fun s => '\x27' :: s ++ [ '\x27' ]))) ++ [ ']' ]

def msgNamesRequired : Str := ("GeoDataFrame name and layer name are required.").toList

def msgNeedOption : Str := ("At least one visualization option must be provided.").toList

def msgBadName (gdf_name : Str) (env : Env) : Str :=
  gdf_name ++ (" is not a valid GeoDataFrame name. Available: ").toList ++ pyStrList (envKeys env)

def msgColNotFound (column gdf_name : Str) (g : GeoDataFrame) : Str :=
  ("Column \x27").toList ++ column ++ ("\x27 not found in ").toList ++ gdf_name
    ++ (". Available columns: ").toList ++ pyStrList (g.cols.map Prod.fst)

def msgNotNumeric (column : Str) (d : Dtype) : Str :=
  ("Column \x27").toList ++ column ++ ("\x27 is not numeric. Type: ").toList ++ dtypeName d

def msgNoPoints (gdf_name : Str) (g : GeoDataFrame) : Str :=
  ("No point geometries found in ").toList ++ gdf_name ++ (". Geometry types: ").toList
    ++ pyStrList (uniqueGtypes g)

def msgCouldNotNumeric (column gdf_name : Str) (e : Str) : Str :=
  ("Could not visualize numeric column \x27").toList ++ column ++ ("\x27 of ").toList
    ++ gdf_name ++ (". Error: ").toList ++ e

def msgCouldNotCategorical (column gdf_name : Str) (e : Str) : Str :=
  ("Could not visualize categorical column \x27").toList ++ column ++ ("\x27 of ").toList
    ++ gdf_name ++ (". Error: ").toList ++ e

def msgCouldNotHeatmap (gdf_name : Str) (e : Str) : Str :=
  ("Could not create heatmap for ").toList ++ gdf_name ++ (". Error: ").toList ++ e

def msgCouldNotGeoms (gdf_name : Str) (e : Str) : Str :=
  ("Could not visualize geometries of ").toList ++ gdf_name ++ (". Error: ").toList ++ e

/-- The prefix common to both no-point-geometries messages. -/
def noPointsMark : Str := ("No point geometries found").toList

/-- The visualize call returned the no-point-geometries error message. -/
def mentionsNoPoints (r : VisResult) : Prop :=
  ∃ m, r = VisResult.err m ∧ startsWith noPointsMark m = true

/-! ## visualize, explore path (visualization_tool.py, lines 171-237 and the
explore branch helpers) -/

/-- Tail shared verbatim by the four explore branches (for example lines
288-293): add_layer_control, then fit_map: the fit oracle's children are
appended and, when fit_map raises, the except handler adds another layer
control and returns the branch's error message. -/
def exploreFinish (st : ToolState) (ext : Ext) (emsg : Str → Str) : VisResult × ToolState :=
  match ext.fit.err with
  | some e =>
    (.err (emsg e),
      { st with map := add_layer_control (applyAdded (add_layer_control st.map) ext.fit.added) })
  | none => (.ok, { st with map := applyAdded (add_layer_control st.map) ext.fit.added })

/-- Rendering tail shared by the four explore branches: the external
explore/HeatMap call appends its children; when it raises, the except
handler adds one layer control and returns the branch's error message,
otherwise the add_layer_control plus fit_map tail runs. -/
def exploreRender (st : ToolState) (ext : Ext) (emsg : Str → Str) : VisResult × ToolState :=
  match ext.render.err with
  | some e =>
    (.err (emsg e), { st with map := add_layer_control (applyAdded st.map ext.render.added) })
  | none => exploreFinish { st with map := applyAdded st.map ext.render.added } ext emsg

/-- _visualize_numeric_explore (lines 255-293).  The column checks run
before any external call; the explore keyword arguments (cmap, vmin, vmax,
k, scheme, legend) only parametrise the external rendering call and are
absorbed by the render oracle. -/
def numericExplore (st : ToolState) (ext : Ext) (gdf : GeoDataFrame)
    (gdf_name : Str) (params : Numeric) : VisResult × ToolState :=
  let column := params.gdf_column
  match dtypeOf gdf column with
  | none => (.err (msgColNotFound column gdf_name gdf), st)
  | some d =>
    if ¬ is_numeric_dtype d then (.err (msgNotNumeric column d), st)
    else exploreRender st ext (msgCouldNotNumeric column gdf_name)

/-- _visualize_categorical_explore (lines 332-365): membership check, the
optional isin filter (Python truthiness: None and the empty list both skip
it), then the rendering tail on the filtered frame. -/
def categoricalExplore (st : ToolState) (ext : Ext) (gdf : GeoDataFrame)
    (gdf_name : Str) (params : Categorical) : VisResult × ToolState :=
  let column := params.gdf_column
  match dtypeOf gdf column with
  | none => (.err (msgColNotFound column gdf_name gdf), st)
  | some _ =>
    let _gdf_filtered := match params.categories with
      | some cats =>
        if cats.isEmpty then gdf
        else { gdf with rows := gdf.rows.filter (fun r => catMem r column cats) }
      | none => gdf
    exploreRender st ext (msgCouldNotCategorical column gdf_name)

/-- _visualize_heatmap_explore (lines 399-421): filter the point rows, fail
with the no-point message when none, raise inside to_crs when the frame has
no CRS (caught by the handler, which adds a layer control), otherwise hand
heat_data to the HeatMap renderer and run the rendering tail. -/
def heatmapExplore (st : ToolState) (ext : Ext) (gdf : GeoDataFrame)
    (gdf_name : Str) : VisResult × ToolState :=
  let point_rows := gdf.rows.filter isPointRow
  if point_rows.length = 0 then (.err (msgNoPoints gdf_name gdf), st)
  else
    match gdf.crs with
    | none => (.err (msgCouldNotHeatmap gdf_name naiveCrsError),
        { st with map := add_layer_control st.map })
    | some _ =>
      let _heat_data := heatDataOf gdf ext.transform
      exploreRender st ext (msgCouldNotHeatmap gdf_name)

/-- _visualize_geometries_explore (lines 462-480). -/
def geometriesExplore (st : ToolState) (ext : Ext)
    (gdf_name : Str) : VisResult × ToolState :=
  exploreRender st ext (msgCouldNotGeoms gdf_name)

/-- _visualize_explore (lines 221-237): delete the existing layer controls,
then dispatch on the option flags; the fall-through returns Python None. -/
def visualizeExplore (st : ToolState) (ext : Ext) (gdf : GeoDataFrame)
    (gdf_name _layer_name : Str) (numeric : Option Numeric)
    (categorical : Option Categorical) (heatmap geometries : Bool) :
    VisResult × ToolState :=
  let st0 := { st with map := deleteLayerControls st.map }
  match numeric with
  | some p => numericExplore st0 ext gdf gdf_name p
  | none =>
    match categorical with
    | some p => categoricalExplore st0 ext gdf gdf_name p
    | none =>
      if heatmap then heatmapExplore st0 ext gdf gdf_name
      else if geometries then geometriesExplore st0 ext gdf_name
      else (.pynone, st0)

/-! ## visualize, plot path (lines 239-253 and the plot branch helpers).
None of the plot branches references self.map: they draw on the fresh
matplotlib figure, and the heatmap branch builds its own temporary folium
map, so the tool's map and environment are never touched here. -/

/-- _visualize_numeric_plot (lines 295-330). -/
def numericPlot (st : ToolState) (ext : Ext) (gdf : GeoDataFrame)
    (gdf_name : Str) (params : Numeric) : VisResult × ToolState :=
  let column := params.gdf_column
  match dtypeOf gdf column with
  | none => (.err (msgColNotFound column gdf_name gdf), st)
  | some d =>
    if ¬ is_numeric_dtype d then (.err (msgNotNumeric column d), st)
    else
      match ext.render.err with
      | some e => (.err (msgCouldNotNumeric column gdf_name e), st)
      | none => (.ok, st)

/-- _visualize_categorical_plot (lines 367-397). -/
def categoricalPlot (st : ToolState) (ext : Ext) (gdf : GeoDataFrame)
    (gdf_name : Str) (params : Categorical) : VisResult × ToolState :=
  let column := params.gdf_column
  match dtypeOf gdf column with
  | none => (.err (msgColNotFound column gdf_name gdf), st)
  | some _ =>
    let _gdf_filtered := match params.categories with
      | some cats =>
        if cats.isEmpty then gdf
        else { gdf with rows := gdf.rows.filter (fun r => catMem r column cats) }
      | none => gdf
    match ext.render.err with
    | some e => (.err (msgCouldNotCategorical column gdf_name e), st)
    | none => (.ok, st)

/-- _visualize_heatmap_plot (lines 423-460): point filter and no-point
message, to_crs raise on a CRS-less frame, then HeatMap on a temporary
folium map, fit_map on that temporary map, and the _to_png conversion; all
raises are caught into the could-not-create message and the tool's own map
is never involved. -/
def heatmapPlot (st : ToolState) (ext : Ext) (gdf : GeoDataFrame)
    (gdf_name : Str) : VisResult × ToolState :=
  let point_rows := gdf.rows.filter isPointRow
  if point_rows.length = 0 then (.err (msgNoPoints gdf_name gdf), st)
  else
    match gdf.crs with
    | none => (.err (msgCouldNotHeatmap gdf_name naiveCrsError), st)
    | some _ =>
      let _heat_data := heatDataOf gdf ext.transform
      match ext.render.err with
      | some e => (.err (msgCouldNotHeatmap gdf_name e), st)
      | none =>
        match ext.fit.err with
        | some e => (.err (msgCouldNotHeatmap gdf_name e), st)
        | none =>
          match ext.toPng with
          | some e => (.err (msgCouldNotHeatmap gdf_name e), st)
          | none => (.ok, st)

/-- _visualize_geometries_plot (lines 482-500). -/
def geometriesPlot (st : ToolState) (ext : Ext)
    (gdf_name : Str) : VisResult × ToolState :=
  match ext.render.err with
  | some e => (.err (msgCouldNotGeoms gdf_name e), st)
  | none => (.ok, st)

/-- _visualize_plot (lines 239-253): plt.subplots installs a fresh figure
and axes, then the dispatch mirrors the explore one. -/
def visualizePlot (st : ToolState) (ext : Ext) (gdf : GeoDataFrame)
    (gdf_name _layer_name : Str) (numeric : Option Numeric)
    (categorical : Option Categorical) (heatmap geometries : Bool) :
    VisResult × ToolState :=
  let st1 := { st with
    current_fig := some st.nextFig
    current_ax := some st.nextFig
    nextFig := st.nextFig + 1 }
  match numeric with
  | some p => numericPlot st1 ext gdf gdf_name p
  | none =>
    match categorical with
    | some p => categoricalPlot st1 ext gdf gdf_name p
    | none =>
      if heatmap then heatmapPlot st1 ext gdf gdf_name
      else if geometries then geometriesPlot st1 ext gdf_name
      else (.pynone, st1)

/-- VisualizationTool.visualize (lines 171-219): argument validation (empty
strings are falsy in Python), the at-least-one-option check, the environment
lookup, then dispatch on the method literal.  The isinstance check of line
210 cannot fail in the typed model, where the environment only holds
GeoDataFrames. -/
def visualize (st : ToolState) (ext : Ext) (gdf_name layer_name : Str)
    (method : Method) (numeric : Option Numeric) (categorical : Option Categorical)
    (heatmap geometries : Bool) : VisResult × ToolState :=
  if gdf_name.isEmpty || layer_name.isEmpty then (.err msgNamesRequired, st)
  else if numeric.isNone && categorical.isNone && !heatmap && !geometries then
    (.err msgNeedOption, st)
  else
    match envFind st.env gdf_name with
    | none => (.err (msgBadName gdf_name st.env), st)
    | some gdf =>
      match method with
      | .explore =>
        visualizeExplore st ext gdf gdf_name layer_name numeric categorical heatmap geometries
      | .plot =>
        visualizePlot st ext gdf gdf_name layer_name numeric categorical heatmap geometries

/-! ## Concrete inputs used by tool witnesses and counterexamples -/

/-- A one-polygon GeoDataFrame in the working CRS. -/
def gdfPoly : GeoDataFrame :=
  { crs := some 25832, cols := [((("id").toList), Dtype.numericD)],
    rows := [{ gtype := ("Polygon").toList, coord := (0, 0), vals := [] }] }

/-- A GeoDataFrame holding one point and one polygon. -/
def gdfMix : GeoDataFrame :=
  { crs := some 25832, cols := [((("id").toList), Dtype.numericD)],
    rows := [{ gtype := ("Point").toList, coord := (3, 4), vals := [] },
             { gtype := ("Polygon").toList, coord := (0, 0), vals := [] }] }

/-- A tool over an empty map whose environment holds gdfPoly under g. -/
def stW : ToolState :=
  { map := { children := [], nextId := 0 }, env := [((("g").toList), gdfPoly)],
    current_fig := none, current_ax := none, nextFig := 0 }

/-- A tool whose environment holds gdfMix under g. -/
def stMix : ToolState :=
  { map := { children := [], nextId := 0 }, env := [((("g").toList), gdfMix)],
    current_fig := none, current_ax := none, nextFig := 0 }

/-- Oracles of an entirely successful rendering. -/
def extOk : Ext :=
  { render := { added := [], err := none }, fit := { added := [], err := none },
    toPng := none, transform := fun p => p }

/-- Oracles of a rendering whose fit_map call raises, as the pyproj
Transformer does when the frame carries no CRS. -/
def extFitRaise : Ext :=
  { render := { added := [], err := none },
    fit := { added := [], err := some (("CRSError").toList) },
    toPng := none, transform := fun p => p }

/-- Numeric parameters naming a column absent from gdfPoly. -/
def numParamsW : Numeric :=
  { gdf_column := ("nope").toList, k := none, scheme := none,
    cmap := ("YlOrRd").toList, vmin := none, vmax := none,
    legend_caption := ("cap").toList }

/-- A MultiPoint row, which the exact comparison with Point rejects. -/
def multiPointRow : GeoRow :=
  { gtype := ("MultiPoint").toList, coord := (7, 8), vals := [] }

/-! ## Export actions of main (visualization_app.py, lines 229-302) -/

/-- The wall-clock instant datetime.now() returns. -/
structure Timestamp where
  day : Nat
  month : Nat
  year : Nat
  hour : Nat
  minute : Nat
  second : Nat
deriving DecidableEq

/-- Zero-padded two-digit strftime field (%d, %m, %H, %M, %S). -/
def pad2 (n : Nat) : Str := if n < 10 then '0' :: natDigits n else natDigits n

/-- Zero-padded four-digit strftime year (%Y). -/
def pad4 (n : Nat) : Str :=
  if n < 10 then '0' :: '0' :: '0' :: natDigits n
  else if n < 100 then '0' :: '0' :: natDigits n
  else if n < 1000 then '0' :: natDigits n
  else natDigits n

/-- datetime.now().strftime of the format string percent-d percent-m
percent-Y underscore percent-H percent-M percent-S used at lines 254 and
293. -/
def strftimeStamp (t : Timestamp) : Str :=
  pad2 t.day ++ pad2 t.month ++ pad4 t.year
    ++ '_' :: (pad2 t.hour ++ pad2 t.minute ++ pad2 t.second)

/-- File-system effects of the export handlers. -/
inductive FsAction
  | mkdirs (path : Str)
  | writeFile (path : Str) (content : Str)
  | savePng (path : Str)
deriving DecidableEq

/-- The per-layer record stored in st.session_state["layers"]
(lines 645-652). -/
structure LayerInfo where
  visualization_type : Str
  geodataframe : Str
  numeric_params : Option Numeric
  categorical_params : Option Categorical
  heatmap : Bool
  geometries : Bool
deriving DecidableEq

/-- Python dict lookup on the layers dictionary. -/
def layerFind (layers : List (Str × LayerInfo)) (k : Str) : Option LayerInfo :=
  match layers with
  | [] => none
  | p :: t => if k = p.1 then some p.2 else layerFind t k

/-- Python prints None this way in an f-string. -/
def pyNoneStr : Str := ("None").toList

/-- The HTML export branch (lines 291-302): take the timestamp, create the
output directory, clean the rendered document and write it; returns the
file-system actions in program order and the UI messages. -/
def exportHtml (now : Timestamp) (renderedHtml : Str) : List FsAction × List UiMsg :=
  let timestamp := strftimeStamp now
  let output_path := ("./Output/Maps").toList
  let cleaned_html := clear_map_html renderedHtml
  let output_file := output_path ++ ("/map_").toList ++ timestamp ++ (".html").toList
  ([FsAction.mkdirs output_path, FsAction.writeFile output_file cleaned_html],
   [UiMsg.uiSuccess (("Map exported as HTML to ").toList ++ output_file)])

/-- The successful-selection part of the PNG export branch (lines 240-286):
look up the frame (a KeyError lands in the broad except), create the output
directory, run visualize with method plot, and save the figure only when
the result is Python True. -/
def exportPngWithLayer (now : Timestamp) (sel : Str) (layer_info : LayerInfo)
    (st : ToolState) (ext : Ext) : List FsAction × List UiMsg :=
  match envFind st.env layer_info.geodataframe with
  | none =>
    ([], [UiMsg.uiError (("Error exporting PNG: \x27").toList
      ++ layer_info.geodataframe ++ [ '\x27' ])])
  | some _ =>
    let timestamp := strftimeStamp now
    let output_path := ("./Output/Images").toList
    let output_file := output_path ++ '/' :: sel ++ '_' :: timestamp ++ (".png").toList
    match (visualize st ext layer_info.geodataframe sel .plot
        layer_info.numeric_params layer_info.categorical_params
        layer_info.heatmap layer_info.geometries).1 with
    | VisResult.ok =>
      ([FsAction.mkdirs output_path, FsAction.savePng output_file],
       [UiMsg.uiSuccess (("PNG exported to ").toList ++ output_file)])
    | VisResult.err m =>
      ([FsAction.mkdirs output_path],
       [UiMsg.uiError (("Error creating visualization: ").toList ++ m)])
    | VisResult.pynone =>
      ([FsAction.mkdirs output_path],
       [UiMsg.uiError (("Error creating visualization: ").toList ++ pyNoneStr)])

/-- The PNG export branch (lines 236-289): reject a missing selection, look
up the layer record (a KeyError lands in the broad except as the
error-exporting message), then proceed with the selected layer. -/
def exportPng (now : Timestamp) (selected_layer : Option Str)
    (layers : List (Str × LayerInfo)) (st : ToolState) (ext : Ext) :
    List FsAction × List UiMsg :=
  match selected_layer with
  | none => ([], [UiMsg.uiError (("No layer selected for export!").toList)])
  | some sel =>
    match layerFind layers sel with
    | none =>
      ([], [UiMsg.uiError (("Error exporting PNG: \x27").toList ++ sel ++ [ '\x27' ])])
    | some layer_info => exportPngWithLayer now sel layer_info st ext

/-- A concrete export instant. -/
def tsW : Timestamp :=
  { day := 12, month := 10, year := 2025, hour := 13, minute := 14, second := 15 }

/-! # Theorems -/

/-! ## Decimal rendering lemmas -/

theorem digitVal_digitChar (d : Nat) (h : d < 10) : digitVal (Nat.digitChar d) = d := by
  interval_cases d <;> rfl

theorem digitsVal_append (xs : List Char) (c : Char) :
    digitsVal (xs ++ [c]) = 10 * digitsVal xs + digitVal c := by
  simp [digitsVal, List.foldl_append]

theorem digitsVal_natDigitsAux (fuel n : Nat) (h : n < fuel) :
    digitsVal (natDigitsAux fuel n) = n := by
  induction fuel generalizing n with
  | zero => omega
  | succ fuel ih =>
    rw [natDigitsAux]
    split
    · next hn =>
      simp [digitsVal, digitVal_digitChar n hn]
    · next hn =>
      rw [digitsVal_append, ih (n / 10) (by omega),
        digitVal_digitChar (n % 10) (Nat.mod_lt n (by omega))]
      omega

theorem digitsVal_natDigits (n : Nat) : digitsVal (natDigits n) = n :=
  digitsVal_natDigitsAux (n + 1) n (by omega)

theorem natDigits_injective : Function.Injective natDigits := by
  intro a b h
  have := digitsVal_natDigits a
  rw [h, digitsVal_natDigits] at this
  omega

/-- Claim C1, counterexample: on two textually identical copies of a
layer-control declaration the var pattern matches twice, yet clear_map_html
deletes every occurrence, so zero matches remain in the output instead of the
last one the claim promises. -/
theorem C1_counterexample :
    (finditer matchVar dupHtml).length = 2 ∧
    (finditer matchVar (clear_map_html dupHtml)).length = 0 := by
  decide

/-- Claim C1, amended: clear_map_html feeds the text of every regex match but
the last to a global substring replacement; when duplicated statements are
textually identical this removes all occurrences including the last (the
duplicated input reduces to the empty string), and the input is returned
unchanged whenever each of the two patterns matches at most once. -/
theorem C1_clear_map_html :
    (∀ html : Str, (finditer matchVar html).length ≤ 1 →
      (finditer matchCre html).length ≤ 1 → clear_map_html html = html)
    ∧ clear_map_html dupHtml = [] := by
  constructor
  · intro html h1 h2
    simp only [clear_map_html]
    rw [if_neg (by omega), if_neg (by omega)]
  · decide

/-- Claim C1, witness: a single declaration matches the var pattern exactly
once and is returned unchanged. -/
theorem C1_witness : clear_map_html lcStmtA = lcStmtA :=
  C1_clear_map_html.1 lcStmtA (by decide) (by decide)

/-! ## Environment dictionary lemmas -/

theorem envFind_append (a b : Env) (k : Str) :
    envFind (a ++ b) k = match envFind a k with
      | some v => some v
      | none => envFind b k := by
  induction a with
  | nil => rfl
  | cons p t ih =>
    by_cases h : k = p.1 <;> simp [envFind, h, ih]

theorem envFind_eq_none (env : Env) (k : Str) (h : k ∉ envKeys env) :
    envFind env k = none := by
  induction env with
  | nil => rfl
  | cons p t ih =>
    simp only [envKeys, List.map_cons, List.mem_cons] at h
    push_neg at h
    have hstep : envFind (p :: t) k = if k = p.1 then some p.2 else envFind t k := rfl
    rw [hstep, if_neg h.1]
    exact ih h.2

theorem envFind_map_overwrite (t : Env) (k : Str) (v : GeoDataFrame) :
    envFind (t.map (fun p => if p.1 = k then (k, v) else p)) k
      = if (envFind t k).isSome then some v else none := by
  induction t with
  | nil => rfl
  | cons p t ih =>
    by_cases hk : p.1 = k
    · simp [envFind, hk, ih]
    · have h1 : ¬ k = p.1 := fun h => hk h.symm
      simp [envFind, hk, h1, ih]

theorem envFind_dictInsert_self (env : Env) (k : Str) (v : GeoDataFrame) :
    envFind (dictInsert env k v) k = some v := by
  unfold dictInsert
  split
  · next h => rw [envFind_map_overwrite, if_pos h]
  · next h =>
    rw [envFind_append]
    have hn : envFind env k = none := by
      cases he : envFind env k
      · rfl
      · rw [he] at h; simp at h
    rw [hn]
    simp [envFind]

theorem gdfName_injective : Function.Injective gdfName := by
  intro a b h
  unfold gdfName at h
  exact natDigits_injective (List.append_cancel_left h)

theorem envWf_fresh (env : Env) (h : envWf env) :
    gdfName env.length ∉ envKeys env := by
  rw [envWf] at h
  rw [h]
  intro hmem
  obtain ⟨i, hi, heq⟩ := List.mem_map.mp hmem
  have hlt : i < env.length := List.mem_range.mp hi
  have : i = env.length := gdfName_injective heq
  omega

/-! ## load_data lemmas -/

theorem to_crs_some_crs (tr : Int × Int → Int × Int) (g g2 : GeoDataFrame)
    (hc : to_crs25832 tr g = some g2) : g2.crs = some 25832 := by
  unfold to_crs25832 at hc
  cases hg : g.crs with
  | none => rw [hg] at hc; exact absurd hc (by simp)
  | some c => rw [hg] at hc; cases hc; rfl

theorem load_data_unsupported_aux (name : Str) (read : Except Str GeoDataFrame)
    (tr : Int × Int → Int × Int) (env : Env)
    (hext : ¬ (extLower name = ("geojson").toList ∨ extLower name = ("zip").toList)) :
    load_data name read tr env
      = (none, env,
          [UiMsg.uiError (("Unsupported file format: ").toList ++ extLower name)]) := by
  simp only [load_data]
  rw [if_neg hext]

theorem load_data_readErr (name : Str) (e : Str)
    (tr : Int × Int → Int × Int) (env : Env)
    (hext : extLower name = ("geojson").toList ∨ extLower name = ("zip").toList) :
    load_data name (.error e) tr env
      = (none, env, [UiMsg.uiError (("Error loading file: ").toList ++ e)]) := by
  simp only [load_data]
  rw [if_pos hext]

theorem load_data_nocrs (name : Str) (g : GeoDataFrame)
    (tr : Int × Int → Int × Int) (env : Env)
    (hext : extLower name = ("geojson").toList ∨ extLower name = ("zip").toList)
    (hc : to_crs25832 tr g = none) :
    load_data name (.ok g) tr env
      = (none, env, [UiMsg.uiError (("Error loading file: ").toList ++ naiveCrsError)]) := by
  simp only [load_data]
  rw [if_pos hext]
  simp [hc]

theorem load_data_store (name : Str) (g g2 : GeoDataFrame)
    (tr : Int × Int → Int × Int) (env : Env)
    (hext : extLower name = ("geojson").toList ∨ extLower name = ("zip").toList)
    (hcrs : to_crs25832 tr g = some g2) :
    load_data name (.ok g) tr env
      = (some (gdfName env.length), dictInsert env (gdfName env.length) g2, []) := by
  simp only [load_data]
  rw [if_pos hext]
  simp [hcrs]

theorem load_data_some (name : Str) (read : Except Str GeoDataFrame)
    (tr : Int × Int → Int × Int) (env : Env) (nm : Str)
    (h : (load_data name read tr env).1 = some nm) :
    nm = gdfName env.length ∧
      ∃ g2, (load_data name read tr env).2.1 = dictInsert env nm g2 ∧ g2.crs = some 25832 := by
  by_cases hext : extLower name = ("geojson").toList ∨ extLower name = ("zip").toList
  · cases read with
    | error e =>
      rw [load_data_readErr name e tr env hext] at h
      simp at h
    | ok g =>
      cases hc : to_crs25832 tr g with
      | none =>
        rw [load_data_nocrs name g tr env hext hc] at h
        simp at h
      | some g2 =>
        rw [load_data_store name g g2 tr env hext hc] at h
        obtain rfl : gdfName env.length = nm := by simpa using h
        refine ⟨rfl, g2, ?_, to_crs_some_crs tr g g2 hc⟩
        rw [load_data_store name g g2 tr env hext hc]
  · rw [load_data_unsupported_aux name read tr env hext] at h
    simp at h

theorem load_data_env_cases (name : Str) (read : Except Str GeoDataFrame)
    (tr : Int × Int → Int × Int) (env : Env) :
    (load_data name read tr env).2.1 = env ∨
      ∃ g2, (load_data name read tr env).2.1 = dictInsert env (gdfName env.length) g2 := by
  by_cases hext : extLower name = ("geojson").toList ∨ extLower name = ("zip").toList
  · cases read with
    | error e => rw [load_data_readErr name e tr env hext]; exact Or.inl rfl
    | ok g =>
      cases hc : to_crs25832 tr g with
      | none => rw [load_data_nocrs name g tr env hext hc]; exact Or.inl rfl
      | some g2 =>
        rw [load_data_store name g g2 tr env hext hc]
        exact Or.inr ⟨g2, rfl⟩
  · rw [load_data_unsupported_aux name read tr env hext]
    exact Or.inl rfl

theorem load_data_wf (name : Str) (read : Except Str GeoDataFrame)
    (tr : Int × Int → Int × Int) (env : Env) (h : envWf env) :
    envWf ((load_data name read tr env).2.1) := by
  rcases load_data_env_cases name read tr env with he | ⟨g2, he⟩
  · rw [he]; exact h
  · rw [he]
    unfold dictInsert
    rw [if_neg (by rw [envFind_eq_none env _ (envWf_fresh env h)]; simp)]
    unfold envWf envKeys at h ⊢
    rw [List.length_append, List.map_append, h]
    simp [List.range_succ]

theorem runOps_wf (tr : Int × Int → Int × Int) (ops : List AppOp) :
    envWf (runOps tr ops) := by
  suffices h : ∀ env, envWf env → envWf (ops.foldl (appStep tr) env) by
    exact h [] (by simp [envWf, envKeys])
  induction ops with
  | nil => intro env h; exact h
  | cons op t ih =>
    intro env h
    refine ih _ ?_
    cases op with
    | load name read => exact load_data_wf name read tr env h
    | clearSession => simp [appStep, envWf, envKeys]

/-- Claim C2: every GeoDataFrame stored by a successful load_data call has
been reprojected to EPSG:25832, whatever CRS the uploaded file declared. -/
theorem C2_load_reprojects (name : Str) (g : GeoDataFrame)
    (tr : Int × Int → Int × Int) (env : Env) (nm : Str)
    (_hext : extLower name = ("geojson").toList ∨ extLower name = ("zip").toList)
    (hres : (load_data name (.ok g) tr env).1 = some nm) :
    ∃ g2, envFind ((load_data name (.ok g) tr env).2.1) nm = some g2
      ∧ g2.crs = some 25832 := by
  obtain ⟨rfl, g2, henv, hcrs⟩ := load_data_some name (.ok g) tr env nm hres
  exact ⟨g2, by rw [henv]; exact envFind_dictInsert_self _ _ _, hcrs⟩

/-- Claim C2, witness: loading a GeoJSON upload declared in EPSG:4326 into an
empty session stores gdf_0 with CRS EPSG:25832. -/
theorem C2_witness :
    ∃ g2, envFind ((load_data (("a.geojson").toList) (.ok gdfW) trId []).2.1)
        (gdfName 0) = some g2 ∧ g2.crs = some 25832 :=
  C2_load_reprojects (("a.geojson").toList) gdfW trId [] (gdfName 0)
    (Or.inl (by decide)) (by decide)

/-- Claim C3: after any sequence of loads and session resets the dictionary
keys are pairwise distinct, a further successful load stores under the fresh
name gdf_(current size) which is not an existing key, and no existing entry
is replaced by a load. -/
theorem C3_unique_names (tr : Int × Int → Int × Int) (ops : List AppOp)
    (name : Str) (read : Except Str GeoDataFrame) :
    (envKeys (runOps tr ops)).Nodup
    ∧ (∀ nm, (load_data name read tr (runOps tr ops)).1 = some nm →
        nm = gdfName (runOps tr ops).length ∧ nm ∉ envKeys (runOps tr ops))
    ∧ (∀ k v, (k, v) ∈ runOps tr ops →
        (k, v) ∈ (load_data name read tr (runOps tr ops)).2.1) := by
  have hwf := runOps_wf tr ops
  refine ⟨?_, ?_, ?_⟩
  · rw [show envKeys (runOps tr ops) = _ from hwf]
    exact List.Nodup.map gdfName_injective (List.nodup_range _)
  · intro nm h
    obtain ⟨rfl, _, _, _⟩ := load_data_some name read tr (runOps tr ops) nm h
    exact ⟨rfl, envWf_fresh _ hwf⟩
  · intro k v hmem
    rcases load_data_env_cases name read tr (runOps tr ops) with he | ⟨g2, he⟩
    · rw [he]; exact hmem
    · rw [he]
      unfold dictInsert
      rw [if_neg (by rw [envFind_eq_none _ _ (envWf_fresh _ hwf)]; simp)]
      exact List.mem_append_left _ hmem

/-- Claim C3, witness: after two successful uploads the next successful load
would store under gdf_2, which is not among the stored keys. -/
theorem C3_witness :
    gdfName 2 = gdfName (runOps trId opsW).length
    ∧ gdfName 2 ∉ envKeys (runOps trId opsW) :=
  (C3_unique_names trId opsW (("c.geojson").toList) (.ok gdfW)).2.1 (gdfName 2) (by decide)

/-- Claim C6: an upload whose lower-cased extension is neither geojson nor
zip yields only the unsupported-format error message, returns None, and
leaves the dictionary untouched. -/
theorem C6_unsupported (name : Str) (read : Except Str GeoDataFrame)
    (tr : Int × Int → Int × Int) (env : Env)
    (h1 : extLower name ≠ ("geojson").toList)
    (h2 : extLower name ≠ ("zip").toList) :
    load_data name read tr env
      = (none, env,
          [UiMsg.uiError (("Unsupported file format: ").toList ++ extLower name)]) :=
  load_data_unsupported_aux name read tr env
    (by rintro (h | h) <;> [exact h1 h; exact h2 h])

/-- Claim C6, witness: uploading a.txt is rejected with the
unsupported-format message and no dictionary entry. -/
theorem C6_witness :
    load_data (("a.txt").toList) (.ok gdfW) trId []
      = (none, [],
          [UiMsg.uiError (("Unsupported file format: ").toList
            ++ extLower (("a.txt").toList))]) :=
  C6_unsupported (("a.txt").toList) (.ok gdfW) trId [] (by decide) (by decide)

/-! ## visualize reduction and validation -/

theorem visualize_reduce (st : ToolState) (ext : Ext) (gdf_name layer_name : Str)
    (method : Method) (numeric : Option Numeric) (categorical : Option Categorical)
    (heatmap geometries : Bool) (gdf : GeoDataFrame)
    (hg : gdf_name ≠ []) (hl : layer_name ≠ [])
    (hopt : ¬ (numeric = none ∧ categorical = none ∧ heatmap = false ∧ geometries = false))
    (henv : envFind st.env gdf_name = some gdf) :
    visualize st ext gdf_name layer_name method numeric categorical heatmap geometries
      = match method with
        | .explore =>
          visualizeExplore st ext gdf gdf_name layer_name numeric categorical heatmap geometries
        | .plot =>
          visualizePlot st ext gdf gdf_name layer_name numeric categorical heatmap geometries := by
  have h1 : (gdf_name.isEmpty || layer_name.isEmpty) = false := by
    cases gdf_name with
    | nil => exact absurd rfl hg
    | cons a t =>
      cases layer_name with
      | nil => exact absurd rfl hl
      | cons b s => rfl
  have h2 : (numeric.isNone && categorical.isNone && !heatmap && !geometries) = false := by
    cases numeric with
    | some p => rfl
    | none =>
      cases categorical with
      | some p => rfl
      | none =>
        cases heatmap with
        | true => rfl
        | false =>
          cases geometries with
          | true => rfl
          | false => exact absurd ⟨rfl, rfl, rfl, rfl⟩ hopt
  unfold visualize
  rw [h1, h2, henv]
  rfl

/-- Claim C7: a visualize call with an empty GeoDataFrame name or layer
name, with no visualization option, or with an unknown GeoDataFrame name
returns an error message and leaves the tool state, in particular the folium
map and the environment, exactly as it was. -/
theorem C7_validation_atomic (st : ToolState) (ext : Ext) (gdf_name layer_name : Str)
    (method : Method) (numeric : Option Numeric) (categorical : Option Categorical)
    (heatmap geometries : Bool)
    (hbad : gdf_name = [] ∨ layer_name = [] ∨
      (numeric = none ∧ categorical = none ∧ heatmap = false ∧ geometries = false) ∨
      envFind st.env gdf_name = none) :
    (∃ m, (visualize st ext gdf_name layer_name method numeric categorical heatmap geometries).1
        = VisResult.err m)
    ∧ (visualize st ext gdf_name layer_name method numeric categorical heatmap geometries).2
        = st := by
  simp only [visualize]
  by_cases h1 : (gdf_name.isEmpty || layer_name.isEmpty) = true
  · rw [if_pos h1]
    exact ⟨⟨msgNamesRequired, rfl⟩, rfl⟩
  · rw [if_neg h1]
    by_cases h2 : (numeric.isNone && categorical.isNone && !heatmap && !geometries) = true
    · rw [if_pos h2]
      exact ⟨⟨msgNeedOption, rfl⟩, rfl⟩
    · rw [if_neg h2]
      have henv : envFind st.env gdf_name = none := by
        rcases hbad with h | h | h | h
        · exact absurd (by subst h; rfl) h1
        · exact absurd (by subst h; simp) h1
        · refine absurd ?_ h2
          obtain ⟨ha, hb, hc, hd⟩ := h
          subst ha; subst hb; subst hc; subst hd
          rfl
        · exact h
      rw [henv]
      exact ⟨⟨msgBadName gdf_name st.env, rfl⟩, rfl⟩

/-- Claim C7, witness: an empty GeoDataFrame name is rejected with an error
and an unchanged state. -/
theorem C7_witness :
    (∃ m, (visualize stW extOk [] (("L").toList) .explore none none false true).1
        = VisResult.err m)
    ∧ (visualize stW extOk [] (("L").toList) .explore none none false true).2 = stW :=
  C7_validation_atomic stW extOk [] (("L").toList) .explore none none false true (Or.inl rfl)

/-! ## Plot-path frame lemmas -/

theorem numericPlot_state (st : ToolState) (ext : Ext) (gdf : GeoDataFrame)
    (gdf_name : Str) (p : Numeric) : (numericPlot st ext gdf gdf_name p).2 = st := by
  simp only [numericPlot]
  split
  · rfl
  · split
    · rfl
    · split <;> rfl

theorem categoricalPlot_state (st : ToolState) (ext : Ext) (gdf : GeoDataFrame)
    (gdf_name : Str) (p : Categorical) : (categoricalPlot st ext gdf gdf_name p).2 = st := by
  simp only [categoricalPlot]
  split
  · rfl
  · split <;> rfl

theorem heatmapPlot_state (st : ToolState) (ext : Ext) (gdf : GeoDataFrame)
    (gdf_name : Str) : (heatmapPlot st ext gdf gdf_name).2 = st := by
  simp only [heatmapPlot]
  split
  · rfl
  · split
    · rfl
    · split
      · rfl
      · split
        · rfl
        · split <;> rfl

theorem geometriesPlot_state (st : ToolState) (ext : Ext)
    (gdf_name : Str) : (geometriesPlot st ext gdf_name).2 = st := by
  simp only [geometriesPlot]
  split <;> rfl

theorem visualizePlot_state (st : ToolState) (ext : Ext) (gdf : GeoDataFrame)
    (gdf_name layer_name : Str) (numeric : Option Numeric)
    (categorical : Option Categorical) (heatmap geometries : Bool) :
    ((visualizePlot st ext gdf gdf_name layer_name numeric categorical heatmap geometries).2).map
        = st.map
    ∧ ((visualizePlot st ext gdf gdf_name layer_name numeric categorical heatmap geometries).2).env
        = st.env := by
  simp only [visualizePlot]
  cases numeric with
  | some p => rw [numericPlot_state]; exact ⟨rfl, rfl⟩
  | none =>
    cases categorical with
    | some p => rw [categoricalPlot_state]; exact ⟨rfl, rfl⟩
    | none =>
      cases heatmap with
      | true => rw [if_pos rfl, heatmapPlot_state]; exact ⟨rfl, rfl⟩
      | false =>
        rw [if_neg (by simp)]
        cases geometries with
        | true => rw [if_pos rfl, geometriesPlot_state]; exact ⟨rfl, rfl⟩
        | false => rw [if_neg (by simp)]; exact ⟨rfl, rfl⟩

/-- Claim C10: a visualize call with method plot never changes the folium
map or the GeoDataFrame environment of the tool, whatever arguments and
external outcomes occur; only the current figure and axes fields move. -/
theorem C10_plot_frame (st : ToolState) (ext : Ext) (gdf_name layer_name : Str)
    (numeric : Option Numeric) (categorical : Option Categorical)
    (heatmap geometries : Bool) :
    ((visualize st ext gdf_name layer_name .plot numeric categorical heatmap geometries).2).map
        = st.map
    ∧ ((visualize st ext gdf_name layer_name .plot numeric categorical heatmap geometries).2).env
        = st.env := by
  unfold visualize
  by_cases h1 : (gdf_name.isEmpty || layer_name.isEmpty) = true
  · rw [if_pos h1]; exact ⟨rfl, rfl⟩
  · rw [if_neg h1]
    by_cases h2 : (numeric.isNone && categorical.isNone && !heatmap && !geometries) = true
    · rw [if_pos h2]; exact ⟨rfl, rfl⟩
    · rw [if_neg h2]
      cases henv : envFind st.env gdf_name with
      | none => exact ⟨rfl, rfl⟩
      | some gdf =>
        exact visualizePlot_state st ext gdf gdf_name layer_name
          numeric categorical heatmap geometries

/-- Claim C5: when the Numeric parameter names a column that is absent or
not of numeric dtype, visualize returns an error-message string (never
True), for both methods and whatever the external libraries would have
done: the checks run before any fallible call. -/
theorem C5_numeric_column_error (st : ToolState) (ext : Ext)
    (gdf_name layer_name : Str) (gdf : GeoDataFrame) (params : Numeric)
    (method : Method) (categorical : Option Categorical) (heatmap geometries : Bool)
    (hg : gdf_name ≠ []) (hl : layer_name ≠ [])
    (henv : envFind st.env gdf_name = some gdf)
    (hcol : dtypeOf gdf params.gdf_column = none ∨
      ∃ d, dtypeOf gdf params.gdf_column = some d ∧ is_numeric_dtype d = false) :
    ∃ m, (visualize st ext gdf_name layer_name method (some params)
        categorical heatmap geometries).1 = VisResult.err m := by
  rw [visualize_reduce st ext gdf_name layer_name method (some params)
    categorical heatmap geometries gdf hg hl (by simp) henv]
  cases method with
  | explore =>
    show ∃ m, (numericExplore { st with map := deleteLayerControls st.map }
      ext gdf gdf_name params).1 = VisResult.err m
    simp only [numericExplore]
    rcases hcol with hnone | ⟨d, hd, hfd⟩
    · rw [hnone]
      exact ⟨msgColNotFound params.gdf_column gdf_name gdf, rfl⟩
    · simp only [hd]
      rw [if_pos (by simp [hfd])]
      exact ⟨msgNotNumeric params.gdf_column d, rfl⟩
  | plot =>
    show ∃ m, (numericPlot { st with
        current_fig := some st.nextFig
        current_ax := some st.nextFig
        nextFig := st.nextFig + 1 }
      ext gdf gdf_name params).1 = VisResult.err m
    simp only [numericPlot]
    rcases hcol with hnone | ⟨d, hd, hfd⟩
    · rw [hnone]
      exact ⟨msgColNotFound params.gdf_column gdf_name gdf, rfl⟩
    · simp only [hd]
      rw [if_pos (by simp [hfd])]
      exact ⟨msgNotNumeric params.gdf_column d, rfl⟩

/-- Claim C5, witness: asking for the absent column nope of a stored frame
produces an error message on the explore path. -/
theorem C5_witness :
    ∃ m, (visualize stW extOk (("g").toList) (("L").toList) .explore
        (some numParamsW) none false false).1 = VisResult.err m :=
  C5_numeric_column_error stW extOk (("g").toList) (("L").toList) gdfPoly numParamsW
    .explore none false false (by decide) (by decide) (by decide) (Or.inl (by decide))

/-! ## Message prefix lemmas -/

theorem startsWith_self_append (p t : Str) : startsWith p (p ++ t) = true := by
  unfold startsWith
  exact List.isPrefixOf_iff_prefix.mpr (List.prefix_append p t)

theorem mentionsNoPoints_msg (gdf_name : Str) (g : GeoDataFrame) :
    mentionsNoPoints (VisResult.err (msgNoPoints gdf_name g)) := by
  refine ⟨msgNoPoints gdf_name g, rfl, ?_⟩
  unfold msgNoPoints
  rw [show ("No point geometries found in ").toList
      = noPointsMark ++ (" in ").toList from by decide]
  simp only [List.append_assoc]
  exact startsWith_self_append _ _

theorem not_mentions_couldNotHeatmap (gdf_name e : Str) :
    ¬ mentionsNoPoints (VisResult.err (msgCouldNotHeatmap gdf_name e)) := by
  rintro ⟨m, hm, hp⟩
  cases hm
  unfold msgCouldNotHeatmap at hp
  rw [show ("Could not create heatmap for ").toList
      = 'C' :: ("ould not create heatmap for ").toList from by decide] at hp
  rw [show noPointsMark = 'N' :: ("o point geometries found").toList from by decide] at hp
  simp only [startsWith, List.cons_append, List.isPrefixOf] at hp
  rw [show ('N' == 'C') = false from rfl] at hp
  simp at hp

theorem not_mentions_ok : ¬ mentionsNoPoints VisResult.ok := by
  rintro ⟨m, hm, _⟩
  exact VisResult.noConfusion hm

/-- Claim C4: a heatmap visualize call returns the no-point-geometries
error message exactly when the frame has no row whose geometry type is the
exact string Point, for both methods and independent of the external
outcomes; and the heat data is built from the Point rows only, so appending
rows of any other geometry type, MultiPoint included, leaves it unchanged. -/
theorem C4_heatmap_points (st : ToolState) (ext : Ext) (gdf_name layer_name : Str)
    (gdf : GeoDataFrame) (method : Method)
    (hg : gdf_name ≠ []) (hl : layer_name ≠ [])
    (henv : envFind st.env gdf_name = some gdf) :
    (mentionsNoPoints (visualize st ext gdf_name layer_name method none none true false).1
      ↔ gdf.rows.filter isPointRow = [])
    ∧ (∀ extra : List GeoRow, (∀ r2 ∈ extra, r2.gtype ≠ pointT) →
        heatDataOf { gdf with rows := gdf.rows ++ extra } ext.transform
          = heatDataOf gdf ext.transform) := by
  constructor
  · rw [visualize_reduce st ext gdf_name layer_name method none none true false gdf hg hl
      (by simp) henv]
    cases method with
    | explore =>
      show mentionsNoPoints ((heatmapExplore { st with map := deleteLayerControls st.map }
          ext gdf gdf_name).1) ↔ _
      simp only [heatmapExplore]
      by_cases hemp : gdf.rows.filter isPointRow = []
      · rw [hemp, if_pos (by simp)]
        exact iff_of_true (mentionsNoPoints_msg gdf_name gdf) rfl
      · rw [if_neg (fun h => hemp (List.length_eq_zero.mp h))]
        refine iff_of_false ?_ hemp
        cases gdf.crs with
        | none => exact not_mentions_couldNotHeatmap gdf_name naiveCrsError
        | some c =>
          simp only [exploreRender]
          cases ext.render.err with
          | some e => exact not_mentions_couldNotHeatmap gdf_name e
          | none =>
            simp only [exploreFinish]
            cases ext.fit.err with
            | some e => exact not_mentions_couldNotHeatmap gdf_name e
            | none => exact not_mentions_ok
    | plot =>
      show mentionsNoPoints ((heatmapPlot { st with
          current_fig := some st.nextFig
          current_ax := some st.nextFig
          nextFig := st.nextFig + 1 } ext gdf gdf_name).1) ↔ _
      simp only [heatmapPlot]
      by_cases hemp : gdf.rows.filter isPointRow = []
      · rw [hemp, if_pos (by simp)]
        exact iff_of_true (mentionsNoPoints_msg gdf_name gdf) rfl
      · rw [if_neg (fun h => hemp (List.length_eq_zero.mp h))]
        refine iff_of_false ?_ hemp
        cases gdf.crs with
        | none => exact not_mentions_couldNotHeatmap gdf_name naiveCrsError
        | some c =>
          cases ext.render.err with
          | some e => exact not_mentions_couldNotHeatmap gdf_name e
          | none =>
            cases ext.fit.err with
            | some e => exact not_mentions_couldNotHeatmap gdf_name e
            | none =>
              cases ext.toPng with
              | some e => exact not_mentions_couldNotHeatmap gdf_name e
              | none => exact not_mentions_ok
  · intro extra hnp
    have hx : extra.filter isPointRow = [] := by
      rw [List.filter_eq_nil_iff]
      intro r2 hr2
      simp [isPointRow]
      exact hnp r2 hr2
    show ((gdf.rows ++ extra).filter isPointRow).map
        (fun r => ((ext.transform r.coord).2, (ext.transform r.coord).1)) = _
    rw [List.filter_append, hx, List.append_nil]
    rfl

/-- Claim C4, witness: on a frame holding one point and one polygon the
no-point message is not produced (the filter is non-empty), and appending a
MultiPoint row leaves the heat data unchanged. -/
theorem C4_witness :
    (mentionsNoPoints (visualize stMix extOk (("g").toList) (("L").toList)
        .explore none none true false).1
      ↔ gdfMix.rows.filter isPointRow = [])
    ∧ heatDataOf { gdfMix with rows := gdfMix.rows ++ [multiPointRow] } extOk.transform
        = heatDataOf gdfMix extOk.transform :=
  ⟨(C4_heatmap_points stMix extOk (("g").toList) (("L").toList) gdfMix .explore
      (by decide) (by decide) (by decide)).1,
    (C4_heatmap_points stMix extOk (("g").toList) (("L").toList) gdfMix .explore
      (by decide) (by decide) (by decide)).2 [multiPointRow] (by
        intro r2 hr2
        simp only [List.mem_singleton] at hr2
        subst hr2
        decide)⟩

/-! ## Layer-control counting -/

theorem lcCount_applyAdded (m : FMap) (added : List Str)
    (h : ∀ k ∈ added, startsWith lcMark k = false) :
    lcCount (applyAdded m added) = lcCount m := by
  show (List.filter (fun k => startsWith lcMark k) (m.children ++ added)).length
      = lcCount m
  rw [List.filter_append]
  rw [show List.filter (fun k => startsWith lcMark k) added = []
    from List.filter_eq_nil_iff.mpr (fun a ha => by simp [h a ha])]
  simp [lcCount]

theorem lcCount_add_layer_control (m : FMap) :
    lcCount (add_layer_control m) = lcCount m + 1 := by
  show (List.filter (fun k => startsWith lcMark k)
      (m.children ++ [lcMark ++ '_' :: natDigits m.nextId])).length = lcCount m + 1
  rw [List.filter_append]
  simp [lcCount, startsWith_self_append]

theorem lcCount_delete (m : FMap) : lcCount (deleteLayerControls m) = 0 := by
  show (List.filter (fun k => startsWith lcMark k)
      (m.children.filter (fun k => ! startsWith lcMark k))).length = 0
  rw [List.filter_filter]
  simp

theorem exploreFinish_lc (st : ToolState) (ext : Ext) (emsg : Str → Str)
    (hf : ∀ k ∈ ext.fit.added, startsWith lcMark k = false) :
    lcCount ((exploreFinish st ext emsg).2).map
        = lcCount st.map + (if ext.fit.err = none then 1 else 2)
    ∧ ((exploreFinish st ext emsg).1 = VisResult.ok ↔ ext.fit.err = none) := by
  unfold exploreFinish
  cases hfe : ext.fit.err with
  | some e =>
    constructor
    · show lcCount (add_layer_control (applyAdded (add_layer_control st.map) ext.fit.added))
          = lcCount st.map + (if (some e : Option Str) = none then 1 else 2)
      rw [lcCount_add_layer_control, lcCount_applyAdded _ _ hf, lcCount_add_layer_control]
      simp
    · exact ⟨fun h => by simp at h, fun h => by simp at h⟩
  | none =>
    constructor
    · show lcCount (applyAdded (add_layer_control st.map) ext.fit.added)
          = lcCount st.map + (if (none : Option Str) = none then 1 else 2)
      rw [lcCount_applyAdded _ _ hf, lcCount_add_layer_control]
      simp
    · simp

theorem exploreRender_lc (st : ToolState) (ext : Ext) (emsg : Str → Str)
    (hr : ∀ k ∈ ext.render.added, startsWith lcMark k = false)
    (hf : ∀ k ∈ ext.fit.added, startsWith lcMark k = false) :
    lcCount ((exploreRender st ext emsg).2).map ≤ lcCount st.map + 2
    ∧ (ext.fit.err = none →
        lcCount ((exploreRender st ext emsg).2).map ≤ lcCount st.map + 1)
    ∧ ((exploreRender st ext emsg).1 = VisResult.ok →
        lcCount ((exploreRender st ext emsg).2).map = lcCount st.map + 1) := by
  unfold exploreRender
  cases hre : ext.render.err with
  | some e =>
    have hcnt : lcCount (add_layer_control (applyAdded st.map ext.render.added))
        = lcCount st.map + 1 := by
      rw [lcCount_add_layer_control, lcCount_applyAdded _ _ hr]
    refine ⟨?_, fun _ => ?_, fun h => absurd h (by simp)⟩
    · show lcCount (add_layer_control (applyAdded st.map ext.render.added))
          ≤ lcCount st.map + 2
      omega
    · show lcCount (add_layer_control (applyAdded st.map ext.render.added))
          ≤ lcCount st.map + 1
      omega
  | none =>
    have hfin := exploreFinish_lc
      { st with map := applyAdded st.map ext.render.added } ext emsg hf
    have hm : lcCount ({ st with map := applyAdded st.map ext.render.added } : ToolState).map
        = lcCount st.map := by
      show lcCount (applyAdded st.map ext.render.added) = lcCount st.map
      exact lcCount_applyAdded _ _ hr
    rw [hm] at hfin
    refine ⟨?_, fun hfe => ?_, fun h => ?_⟩
    · show lcCount ((exploreFinish
          { st with map := applyAdded st.map ext.render.added } ext emsg).2).map
          ≤ lcCount st.map + 2
      rw [hfin.1]
      split <;> omega
    · show lcCount ((exploreFinish
          { st with map := applyAdded st.map ext.render.added } ext emsg).2).map
          ≤ lcCount st.map + 1
      rw [hfin.1, if_pos hfe]
    · have h2 : (exploreFinish
          { st with map := applyAdded st.map ext.render.added } ext emsg).1
          = VisResult.ok := h
      have hfe := hfin.2.mp h2
      show lcCount ((exploreFinish
          { st with map := applyAdded st.map ext.render.added } ext emsg).2).map
          = lcCount st.map + 1
      rw [hfin.1, if_pos hfe]

theorem numericExplore_lc (st : ToolState) (ext : Ext) (gdf : GeoDataFrame)
    (gdf_name : Str) (p : Numeric)
    (hr : ∀ k ∈ ext.render.added, startsWith lcMark k = false)
    (hf : ∀ k ∈ ext.fit.added, startsWith lcMark k = false) :
    lcCount ((numericExplore st ext gdf gdf_name p).2).map ≤ lcCount st.map + 2
    ∧ (ext.fit.err = none →
        lcCount ((numericExplore st ext gdf gdf_name p).2).map ≤ lcCount st.map + 1)
    ∧ ((numericExplore st ext gdf gdf_name p).1 = VisResult.ok →
        lcCount ((numericExplore st ext gdf gdf_name p).2).map = lcCount st.map + 1) := by
  simp only [numericExplore]
  split
  · refine ⟨?_, fun _ => ?_, fun h => absurd h (by simp)⟩
    · show lcCount st.map ≤ lcCount st.map + 2
      omega
    · show lcCount st.map ≤ lcCount st.map + 1
      omega
  · split
    · refine ⟨?_, fun _ => ?_, fun h => absurd h (by simp)⟩
      · show lcCount st.map ≤ lcCount st.map + 2
        omega
      · show lcCount st.map ≤ lcCount st.map + 1
        omega
    · exact exploreRender_lc st ext _ hr hf

theorem categoricalExplore_lc (st : ToolState) (ext : Ext) (gdf : GeoDataFrame)
    (gdf_name : Str) (p : Categorical)
    (hr : ∀ k ∈ ext.render.added, startsWith lcMark k = false)
    (hf : ∀ k ∈ ext.fit.added, startsWith lcMark k = false) :
    lcCount ((categoricalExplore st ext gdf gdf_name p).2).map ≤ lcCount st.map + 2
    ∧ (ext.fit.err = none →
        lcCount ((categoricalExplore st ext gdf gdf_name p).2).map ≤ lcCount st.map + 1)
    ∧ ((categoricalExplore st ext gdf gdf_name p).1 = VisResult.ok →
        lcCount ((categoricalExplore st ext gdf gdf_name p).2).map = lcCount st.map + 1) := by
  simp only [categoricalExplore]
  split
  · refine ⟨?_, fun _ => ?_, fun h => absurd h (by simp)⟩
    · show lcCount st.map ≤ lcCount st.map + 2
      omega
    · show lcCount st.map ≤ lcCount st.map + 1
      omega
  · exact exploreRender_lc st ext _ hr hf

theorem heatmapExplore_lc (st : ToolState) (ext : Ext) (gdf : GeoDataFrame)
    (gdf_name : Str)
    (hr : ∀ k ∈ ext.render.added, startsWith lcMark k = false)
    (hf : ∀ k ∈ ext.fit.added, startsWith lcMark k = false) :
    lcCount ((heatmapExplore st ext gdf gdf_name).2).map ≤ lcCount st.map + 2
    ∧ (ext.fit.err = none →
        lcCount ((heatmapExplore st ext gdf gdf_name).2).map ≤ lcCount st.map + 1)
    ∧ ((heatmapExplore st ext gdf gdf_name).1 = VisResult.ok →
        lcCount ((heatmapExplore st ext gdf gdf_name).2).map = lcCount st.map + 1) := by
  simp only [heatmapExplore]
  split
  · refine ⟨?_, fun _ => ?_, fun h => absurd h (by simp)⟩
    · show lcCount st.map ≤ lcCount st.map + 2
      omega
    · show lcCount st.map ≤ lcCount st.map + 1
      omega
  · split
    · refine ⟨?_, fun _ => ?_, fun h => absurd h (by simp)⟩
      · show lcCount (add_layer_control st.map) ≤ lcCount st.map + 2
        rw [lcCount_add_layer_control]
        omega
      · show lcCount (add_layer_control st.map) ≤ lcCount st.map + 1
        rw [lcCount_add_layer_control]
    · exact exploreRender_lc st ext _ hr hf

theorem geometriesExplore_lc (st : ToolState) (ext : Ext) (gdf_name : Str)
    (hr : ∀ k ∈ ext.render.added, startsWith lcMark k = false)
    (hf : ∀ k ∈ ext.fit.added, startsWith lcMark k = false) :
    lcCount ((geometriesExplore st ext gdf_name).2).map ≤ lcCount st.map + 2
    ∧ (ext.fit.err = none →
        lcCount ((geometriesExplore st ext gdf_name).2).map ≤ lcCount st.map + 1)
    ∧ ((geometriesExplore st ext gdf_name).1 = VisResult.ok →
        lcCount ((geometriesExplore st ext gdf_name).2).map = lcCount st.map + 1) := by
  simp only [geometriesExplore]
  exact exploreRender_lc st ext _ hr hf

theorem visualizeExplore_lc (st : ToolState) (ext : Ext) (gdf : GeoDataFrame)
    (gdf_name layer_name : Str) (numeric : Option Numeric)
    (categorical : Option Categorical) (heatmap geometries : Bool)
    (hr : ∀ k ∈ ext.render.added, startsWith lcMark k = false)
    (hf : ∀ k ∈ ext.fit.added, startsWith lcMark k = false)
    (hopt : ¬ (numeric = none ∧ categorical = none ∧ heatmap = false ∧ geometries = false)) :
    lcCount ((visualizeExplore st ext gdf gdf_name layer_name numeric categorical
        heatmap geometries).2).map ≤ 2
    ∧ (ext.fit.err = none →
        lcCount ((visualizeExplore st ext gdf gdf_name layer_name numeric categorical
          heatmap geometries).2).map ≤ 1)
    ∧ ((visualizeExplore st ext gdf gdf_name layer_name numeric categorical
          heatmap geometries).1 = VisResult.ok →
        lcCount ((visualizeExplore st ext gdf gdf_name layer_name numeric categorical
          heatmap geometries).2).map = 1) := by
  have hdel : lcCount ({ st with map := deleteLayerControls st.map } : ToolState).map = 0 := by
    show lcCount (deleteLayerControls st.map) = 0
    exact lcCount_delete st.map
  simp only [visualizeExplore]
  cases numeric with
  | some p =>
    have h := numericExplore_lc { st with map := deleteLayerControls st.map }
      ext gdf gdf_name p hr hf
    rw [hdel] at h
    simpa using h
  | none =>
    cases categorical with
    | some p =>
      have h := categoricalExplore_lc { st with map := deleteLayerControls st.map }
        ext gdf gdf_name p hr hf
      rw [hdel] at h
      simpa using h
    | none =>
      cases heatmap with
      | true =>
        have h := heatmapExplore_lc { st with map := deleteLayerControls st.map }
          ext gdf gdf_name hr hf
        rw [hdel] at h
        simpa using h
      | false =>
        cases geometries with
        | true =>
          have h := geometriesExplore_lc { st with map := deleteLayerControls st.map }
            ext gdf_name hr hf
          rw [hdel] at h
          simpa using h
        | false => exact absurd ⟨rfl, rfl, rfl, rfl⟩ hopt

/-- Claim C9 (amended): after an explore call that reaches the rendering
branches (non-empty names, at least one option, known frame) the map holds
at most two layer-control children: exactly one on success, at most one
whenever the fit_map oracle does not raise, and two exactly on the paths
where fit_map raises after the success-path add_layer_control already ran,
since the except handler then adds a second one.  The hypotheses on the
oracle keys record that folium derives child keys from class names, so no
external call adds a key starting with layer_control. -/
theorem C9_layer_control_count (st : ToolState) (ext : Ext)
    (gdf_name layer_name : Str) (numeric : Option Numeric)
    (categorical : Option Categorical) (heatmap geometries : Bool) (gdf : GeoDataFrame)
    (hr : ∀ k ∈ ext.render.added, startsWith lcMark k = false)
    (hf : ∀ k ∈ ext.fit.added, startsWith lcMark k = false)
    (hg : gdf_name ≠ []) (hl : layer_name ≠ [])
    (hopt : ¬ (numeric = none ∧ categorical = none ∧ heatmap = false ∧ geometries = false))
    (henv : envFind st.env gdf_name = some gdf) :
    lcCount ((visualize st ext gdf_name layer_name .explore numeric categorical
        heatmap geometries).2).map ≤ 2
    ∧ (ext.fit.err = none →
        lcCount ((visualize st ext gdf_name layer_name .explore numeric categorical
          heatmap geometries).2).map ≤ 1)
    ∧ ((visualize st ext gdf_name layer_name .explore numeric categorical
          heatmap geometries).1 = VisResult.ok →
        lcCount ((visualize st ext gdf_name layer_name .explore numeric categorical
          heatmap geometries).2).map = 1) := by
  rw [visualize_reduce st ext gdf_name layer_name .explore numeric categorical
    heatmap geometries gdf hg hl hopt henv]
  exact visualizeExplore_lc st ext gdf gdf_name layer_name numeric categorical
    heatmap geometries hr hf hopt

/-- Claim C9, counterexample: a geometries-only explore call on a clean map
whose rendering succeeds but whose fit_map call raises ends with two
layer-control children, refuting the at-most-one claim: the success path
added one before the exception and the handler added another. -/
theorem C9_counterexample :
    lcCount ((visualize stW extFitRaise (("g").toList) (("L").toList)
        .explore none none false true).2).map = 2 := by
  decide

/-- Claim C9, witness: the same call with a fit_map that does not raise
leaves at most one layer-control child. -/
theorem C9_witness :
    lcCount ((visualize stW extOk (("g").toList) (("L").toList)
        .explore none none false true).2).map ≤ 1 :=
  (C9_layer_control_count stW extOk (("g").toList) (("L").toList) none none false true
    gdfPoly (by simp [extOk]) (by simp [extOk]) (by decide) (by decide) (by simp)
    (by decide)).2.1 rfl

/-! ## Timestamp format lemmas -/

theorem digitChar_isDigit (d : Nat) (h : d < 10) : (Nat.digitChar d).isDigit = true := by
  interval_cases d <;> decide

theorem natDigitsAux_digits (fuel : Nat) : ∀ n, ∀ c ∈ natDigitsAux fuel n, c.isDigit = true := by
  induction fuel with
  | zero => intro n c hc; cases hc
  | succ f ih =>
    intro n c hc
    rw [natDigitsAux] at hc
    by_cases h : n < 10
    · rw [if_pos h] at hc
      simp only [List.mem_singleton] at hc
      subst hc
      exact digitChar_isDigit n h
    · rw [if_neg h] at hc
      rcases List.mem_append.mp hc with h1 | h1
      · exact ih (n / 10) c h1
      · simp only [List.mem_singleton] at h1
        subst h1
        exact digitChar_isDigit (n % 10) (Nat.mod_lt n (by omega))

theorem natDigits_digits (n : Nat) : ∀ c ∈ natDigits n, c.isDigit = true :=
  natDigitsAux_digits (n + 1) n

theorem natDigitsAux_len1 (fuel n : Nat) (hf : 0 < fuel) (h : n < 10) :
    (natDigitsAux fuel n).length = 1 := by
  cases fuel with
  | zero => omega
  | succ f => rw [natDigitsAux, if_pos h]; rfl

theorem natDigitsAux_len2 (fuel n : Nat) (hf : n < fuel) (h1 : 10 ≤ n) (h2 : n < 100) :
    (natDigitsAux fuel n).length = 2 := by
  cases fuel with
  | zero => omega
  | succ f =>
    rw [natDigitsAux, if_neg (by omega), List.length_append,
      natDigitsAux_len1 f (n / 10) (by omega) (by omega)]
    rfl

theorem natDigitsAux_len3 (fuel n : Nat) (hf : n < fuel) (h1 : 100 ≤ n) (h2 : n < 1000) :
    (natDigitsAux fuel n).length = 3 := by
  cases fuel with
  | zero => omega
  | succ f =>
    rw [natDigitsAux, if_neg (by omega), List.length_append,
      natDigitsAux_len2 f (n / 10) (by omega) (by omega) (by omega)]
    rfl

theorem natDigitsAux_len4 (fuel n : Nat) (hf : n < fuel) (h1 : 1000 ≤ n) (h2 : n < 10000) :
    (natDigitsAux fuel n).length = 4 := by
  cases fuel with
  | zero => omega
  | succ f =>
    rw [natDigitsAux, if_neg (by omega), List.length_append,
      natDigitsAux_len3 f (n / 10) (by omega) (by omega) (by omega)]
    rfl

theorem pad2_length (n : Nat) (h : n < 100) : (pad2 n).length = 2 := by
  unfold pad2
  split
  · next h10 =>
    show (natDigitsAux (n + 1) n).length + 1 = 2
    rw [natDigitsAux_len1 (n + 1) n (by omega) h10]
  · next h10 =>
    exact natDigitsAux_len2 (n + 1) n (by omega) (by omega) h

theorem pad4_length (n : Nat) (h : n < 10000) : (pad4 n).length = 4 := by
  unfold pad4
  split
  · next h10 =>
    show (natDigitsAux (n + 1) n).length + 3 = 4
    rw [natDigitsAux_len1 (n + 1) n (by omega) h10]
  · split
    · next h10 h100 =>
      show (natDigitsAux (n + 1) n).length + 2 = 4
      rw [natDigitsAux_len2 (n + 1) n (by omega) (by omega) (by omega)]
    · split
      · next h10 h100 h1000 =>
        show (natDigitsAux (n + 1) n).length + 1 = 4
        rw [natDigitsAux_len3 (n + 1) n (by omega) (by omega) (by omega)]
      · next h10 h100 h1000 =>
        exact natDigitsAux_len4 (n + 1) n (by omega) (by omega) h

theorem pad2_digits (n : Nat) : ∀ c ∈ pad2 n, c.isDigit = true := by
  unfold pad2
  split
  · intro c hc
    rcases List.mem_cons.mp hc with h1 | h1
    · subst h1; decide
    · exact natDigits_digits n c h1
  · exact natDigits_digits n

theorem pad4_digits (n : Nat) : ∀ c ∈ pad4 n, c.isDigit = true := by
  unfold pad4
  split
  · intro c hc
    rcases List.mem_cons.mp hc with h1 | h1
    · subst h1; decide
    rcases List.mem_cons.mp h1 with h2 | h2
    · subst h2; decide
    rcases List.mem_cons.mp h2 with h3 | h3
    · subst h3; decide
    · exact natDigits_digits n c h3
  · split
    · intro c hc
      rcases List.mem_cons.mp hc with h1 | h1
      · subst h1; decide
      rcases List.mem_cons.mp h1 with h2 | h2
      · subst h2; decide
      · exact natDigits_digits n c h2
    · split
      · intro c hc
        rcases List.mem_cons.mp hc with h1 | h1
        · subst h1; decide
        · exact natDigits_digits n c h1
      · exact natDigits_digits n

theorem strftime_shape (t : Timestamp) (hd : t.day < 100) (hmo : t.month < 100)
    (hy : t.year < 10000) (hh : t.hour < 100) (hmi : t.minute < 100)
    (hs : t.second < 100) :
    (strftimeStamp t).length = 15
    ∧ ∀ c ∈ strftimeStamp t, c.isDigit = true ∨ c = '_' := by
  constructor
  · unfold strftimeStamp
    simp only [List.length_append, List.length_cons]
    rw [pad2_length t.day hd, pad2_length t.month hmo, pad4_length t.year hy,
      pad2_length t.hour hh, pad2_length t.minute hmi, pad2_length t.second hs]
  · intro c hc
    unfold strftimeStamp at hc
    simp only [List.mem_append, List.mem_cons] at hc
    rcases hc with ((h | h) | h) | h | ((h | h) | h)
    · exact Or.inl (pad2_digits t.day c h)
    · exact Or.inl (pad2_digits t.month c h)
    · exact Or.inl (pad4_digits t.year c h)
    · exact Or.inr h
    · exact Or.inl (pad2_digits t.hour c h)
    · exact Or.inl (pad2_digits t.minute c h)
    · exact Or.inl (pad2_digits t.second c h)

theorem exportPngWithLayer_cases (now : Timestamp) (sel : Str)
    (layer_info : LayerInfo) (st : ToolState) (ext : Ext) :
    (exportPngWithLayer now sel layer_info st ext).1 = []
    ∨ (exportPngWithLayer now sel layer_info st ext).1
        = [FsAction.mkdirs (("./Output/Images").toList)]
    ∨ (exportPngWithLayer now sel layer_info st ext).1
        = [FsAction.mkdirs (("./Output/Images").toList),
           FsAction.savePng ((("./Output/Images").toList) ++ '/' :: sel
             ++ '_' :: strftimeStamp now ++ (".png").toList)] := by
  simp only [exportPngWithLayer]
  cases henv2 : envFind st.env layer_info.geodataframe with
  | none => exact Or.inl rfl
  | some g =>
    cases hres : (visualize st ext layer_info.geodataframe sel .plot
        layer_info.numeric_params layer_info.categorical_params
        layer_info.heatmap layer_info.geometries).1 with
    | ok => exact Or.inr (Or.inr rfl)
    | err m => exact Or.inr (Or.inl rfl)
    | pynone => exact Or.inr (Or.inl rfl)

/-- Claim C8: the HTML export performs exactly a directory creation of
./Output/Maps followed by a write of the cleaned document to
./Output/Maps/map_<timestamp>.html; any saved PNG goes to
./Output/Images/<layer>_<timestamp>.png with the directory created first;
and the timestamp is the current time in the ddmmYYYY_HHMMSS shape:
fifteen characters, all digits except the separating underscore. -/
theorem C8_export_paths (now : Timestamp) (renderedHtml : Str)
    (selected : Option Str) (layers : List (Str × LayerInfo))
    (st : ToolState) (ext : Ext)
    (hd : now.day < 100) (hmo : now.month < 100) (hy : now.year < 10000)
    (hh : now.hour < 100) (hmi : now.minute < 100) (hs : now.second < 100) :
    (exportHtml now renderedHtml).1
      = [FsAction.mkdirs (("./Output/Maps").toList),
         FsAction.writeFile ((("./Output/Maps").toList) ++ ("/map_").toList
           ++ strftimeStamp now ++ (".html").toList) (clear_map_html renderedHtml)]
    ∧ ((exportPng now selected layers st ext).1 = []
      ∨ (exportPng now selected layers st ext).1
          = [FsAction.mkdirs (("./Output/Images").toList)]
      ∨ ∃ sel, selected = some sel
          ∧ (exportPng now selected layers st ext).1
            = [FsAction.mkdirs (("./Output/Images").toList),
               FsAction.savePng ((("./Output/Images").toList) ++ '/' :: sel
                 ++ '_' :: strftimeStamp now ++ (".png").toList)])
    ∧ (strftimeStamp now).length = 15
    ∧ (∀ c ∈ strftimeStamp now, c.isDigit = true ∨ c = '_') := by
  have hshape := strftime_shape now hd hmo hy hh hmi hs
  refine ⟨rfl, ?_, hshape.1, hshape.2⟩
  cases selected with
  | none => exact Or.inl rfl
  | some sel =>
    simp only [exportPng]
    cases hlf : layerFind layers sel with
    | none => exact Or.inl rfl
    | some layer_info =>
      rcases exportPngWithLayer_cases now sel layer_info st ext with h | h | h
      · exact Or.inl h
      · exact Or.inr (Or.inl h)
      · exact Or.inr (Or.inr ⟨sel, rfl, h⟩)

/-- Claim C8, witness: a concrete instant formats to a fifteen-character
timestamp. -/
theorem C8_witness : (strftimeStamp tsW).length = 15 :=
  (C8_export_paths tsW [] none [] stW extOk (by decide) (by decide) (by decide)
    (by decide) (by decide) (by decide)).2.2.1

end Viz
